import Mathlib

/-!
Shallow embedding of the x402 payment-gateway core of the
`movement_hackathon` backend: the paywall middleware
(`app/x402/middleware.py`), its types (`app/x402/types.py`), and the
facilitator service (`app/facilitator/service.py`).

Python dictionaries/JSON values are modelled by the inductive `Jv`;
Python exceptions raised inside a `try` block are modelled by `Except`;
external library calls (base64, json, the Aptos SDK deserializer, HTTP)
are modelled as explicit oracle parameters, so every middleware branch
is a total Lean function of the request and of the oracle outcomes.
-/

namespace X402

/-- JSON-like Python values (dicts as association lists). -/
inductive Jv where
| str (s : String)
| int (n : Int)
| bool (b : Bool)
| null
| arr (xs : List Jv)
| obj (kvs : List (String × Jv))
deriving Repr

/-- Python truthiness of a `Jv` value (`bool(x)`). -/
def truthy : Jv → Bool
| .str s => s ≠ ""
| .int n => n ≠ 0
| .bool b => b
| .null => false
| .arr xs => !xs.isEmpty
| .obj kvs => !kvs.isEmpty

/-- Truthiness of an optional value (`None` is falsy). -/
def truthyOpt : Option Jv → Bool
| none => false
| some j => truthy j

/-- Dictionary lookup, `d.get(k)` on an association list. -/
def jLookup (kvs : List (String × Jv)) (k : String) : Option Jv :=
  List.lookup k kvs

/-- ASCII lowercase of one character (Python `str.lower` on the ASCII
range, the only range appearing in addresses and header keys). -/
def lowerChar (c : Char) : Char :=
  if 'A' ≤ c ∧ c ≤ 'Z' then Char.ofNat (c.toNat + 32) else c

/-- ASCII uppercase of one character (Python `str.upper`). -/
def upperChar (c : Char) : Char :=
  if 'a' ≤ c ∧ c ≤ 'z' then Char.ofNat (c.toNat - 32) else c

/-- Python `s.lower()`. -/
def strLower (s : String) : String := String.mk (s.toList.map lowerChar)

/-- Python `s.upper()`. -/
def strUpper (s : String) : String := String.mk (s.toList.map upperChar)

/-- Python `s.endswith(suf)`. -/
def strEndsWith (s suf : String) : Bool := List.isSuffixOf suf.toList s.toList

/-- Python `s.startswith(pre)`. -/
def strStartsWith (s p : String) : Bool := List.isPrefixOf p.toList s.toList

/-- Python `s[:n]`. -/
def strTakeN (s : String) (n : Nat) : String := String.mk (s.toList.take n)

/-- Python `s.split(\x22?\x22)[0]`: the characters before the first `?`. -/
def strBeforeQuery (s : String) : String :=
  String.mk (s.toList.takeWhile (fun c => c ≠ '?'))

/-- Python whitespace as stripped by `int()`. -/
def isPySpace (c : Char) : Bool :=
  c = ' ' || c = '\t' || c = '\n' || c = '\r' || c = '\x0b' || c = '\x0c'

/-- Strip leading and trailing whitespace from a character list. -/
def lcStrip (cs : List Char) : List Char :=
  ((cs.dropWhile isPySpace).reverse.dropWhile isPySpace).reverse

/-- Value of a run of decimal digits. -/
def digitsToNat (ds : List Char) : Nat :=
  ds.foldl (fun a c => a * 10 + (c.toNat - 48)) 0

/-- Python `int(s)` on a string: optional surrounding whitespace,
optional sign, then a non-empty run of digits; anything else raises. -/
def pyIntOfString (s : String) : Except String Int :=
  let core := fun (ds : List Char) (neg : Bool) =>
    if ds ≠ [] ∧ ds.all Char.isDigit then
      let v : Int := Int.ofNat (digitsToNat ds)
      Except.ok (if neg then -v else v)
    else
      Except.error ("invalid literal for int() with base 10: " ++ s)
  match lcStrip s.toList with
  | '-' :: rest => core rest true
  | '+' :: rest => core rest false
  | cs => core cs false

/-- Python `int(x)` on a JSON value: ints and bools pass through,
strings are parsed, everything else raises `TypeError`. -/
def pyIntJv : Jv → Except String Int
| .int n => .ok n
| .bool b => .ok (if b then 1 else 0)
| .str s => pyIntOfString s
| _ => .error "TypeError: int() argument"

/-- Is `needle` a contiguous sublist of the second argument? -/
def listInfix (needle : List Char) : List Char → Bool
| [] => needle.isEmpty
| c :: rest => List.isPrefixOf needle (c :: rest) || listInfix needle rest

/-- Python substring containment `needle in hay`. -/
def strContains (hay needle : String) : Bool :=
  listInfix needle.toList hay.toList

/-- Python `s.rstrip(\x22/\x22)`: drop every trailing `/`. -/
def pyRstripSlash (s : String) : String :=
  String.mk ((s.toList.reverse.dropWhile (fun c => c = '/')).reverse)

/-- Model of `RouteConfig` from `app/x402/types.py`. -/
structure RouteConfig where
  network : String
  asset : String
  max_amount_required : String
  description : String := ""
  mime_type : String := "application/json"
  max_timeout_seconds : Int := 600
  output_schema : Option Jv := none
  extra : List (String × Jv) := []
deriving Repr

/-- Model of `PaymentRequirements` from `app/x402/types.py`. -/
structure PaymentRequirements where
  scheme : String
  network : String
  max_amount_required : String
  resource : String
  description : String
  mime_type : String
  pay_to : String
  max_timeout_seconds : Int
  asset : String
  output_schema : Option Jv
  extra : List (String × Jv)
deriving Repr

/-- Model of `PaymentRequirements.to_dict` from `app/x402/types.py`:
camelCase keys; `outputSchema` and `extra` only when truthy. -/
def PaymentRequirements.to_dict (r : PaymentRequirements) : List (String × Jv) :=
  [("scheme", .str r.scheme),
   ("network", .str r.network),
   ("maxAmountRequired", .str r.max_amount_required),
   ("resource", .str r.resource),
   ("description", .str r.description),
   ("mimeType", .str r.mime_type),
   ("payTo", .str r.pay_to),
   ("maxTimeoutSeconds", .int r.max_timeout_seconds),
   ("asset", .str r.asset)]
  ++ (match r.output_schema with
      | some j => if truthy j then [("outputSchema", j)] else []
      | none => [])
  ++ (if !r.extra.isEmpty then [("extra", .obj r.extra)] else [])

/-- Model of `to_payment_requirements` from `app/x402/middleware.py`. -/
def to_payment_requirements (resource_url : String) (pay_to : String)
    (config : RouteConfig) : PaymentRequirements :=
  { scheme := "exact"
    network := config.network
    max_amount_required := config.max_amount_required
    resource := resource_url
    description := config.description
    mime_type := config.mime_type
    pay_to := pay_to
    max_timeout_seconds := config.max_timeout_seconds
    asset := config.asset
    output_schema := config.output_schema
    extra := config.extra }

/-- An inbound HTTP request as the middleware sees it: method,
`request.url.path`, and headers (Starlette headers are
case-insensitive; keys are compared lowercased). -/
structure Request where
  method : String
  path : String
  headers : List (String × String)
deriving Repr

/-- Model of `request.headers.get(k)`, case-insensitive. -/
def headerGet (req : Request) (k : String) : Option String :=
  (req.headers.find? (fun p => strLower p.1 = strLower k)).map (·.2)

/-- Model of `absolute_resource_url` from `app/x402/middleware.py`. -/
def absolute_resource_url (req : Request) : String :=
  let scheme := (headerGet req "x-forwarded-proto").getD "http"
  let host := (headerGet req "host").getD "localhost"
  let path := strBeforeQuery req.path
  scheme ++ "://" ++ host ++ path

/-- Model of `X402PaywallMiddleware._should_skip_payment`: a path whose text ends
with, or contains, any configured skip path bypasses payment checks. -/
def should_skip_payment (skip_paths : List String) (path : String) : Bool :=
  skip_paths.any (fun sp => strEndsWith path sp || strContains path sp)

/-- Path normalization inside `_get_route_config`:
`path.rstrip(\x22/\x22) or \x22/\x22`, then ensure a leading slash. -/
def normalize_path (path : String) : String :=
  let p := pyRstripSlash path
  let p := if p = "" then "/" else p
  if strStartsWith p "/" then p else "/" ++ p

/-- Model of `X402PaywallMiddleware._get_route_config`: exact key, then the key
with a trailing slash, then the `POST /` wildcard for POST requests. -/
def get_route_config (routes : List (String × RouteConfig))
    (method path : String) : Option RouteConfig :=
  let np := normalize_path path
  match List.lookup (strUpper method ++ " " ++ np) routes with
  | some rc => some rc
  | none =>
    match List.lookup (strUpper method ++ " " ++ np ++ "/") routes with
    | some rc => some rc
    | none =>
      if strUpper method = "POST" then List.lookup "POST /" routes
      else none

/-- A Python exception thrown inside the middleware `try` block:
either a `ValueError` (raised by the header decoder) or any other
exception type. -/
inductive Exc where
| valueError (msg : String)
| otherError (msg : String)
deriving Repr

/-- Oracles for the Python standard-library calls made by
`_decode_payment_header`; each models the library call's result, with
`Except.error` standing for a raised exception whose `str` is carried. -/
structure PyLib where
  b64decode : String → Except String (List Nat)
  utf8decode : List Nat → Except String String
  jsonLoads : String → Except String Jv

/-- Model of `X402PaywallMiddleware._decode_payment_header`: base64-decode,
UTF-8-decode and JSON-parse the header; any failure is re-raised as a
`ValueError` prefixed with a fixed message. -/
def decode_payment_header (lib : PyLib) (payment_header : String) :
    Except Exc Jv :=
  let r : Except String Jv := do
    let bs ← lib.b64decode payment_header
    let s ← lib.utf8decode bs
    lib.jsonLoads s
  match r with
  | .ok j => .ok j
  | .error e => .error (.valueError ("Failed to decode payment header: " ++ e))

/-- Verification result dictionary `{isValid, payer?, invalidReason?}`
produced by the facilitator. -/
structure VerificationResult where
  isValid : Bool
  payer : Option String := none
  invalidReason : Option String := none
deriving Repr

/-- Model of `_create_payment_required_response`: the 402 JSON body; the `error`
key is added only when the error value is truthy. -/
def create_payment_required_response (requirements : PaymentRequirements)
    (error : Option Jv) : List (String × Jv) :=
  [("x402Version", .int 1),
   ("accepts", .arr [.obj requirements.to_dict])]
  ++ (match error with
      | some e => if truthy e then [("error", e)] else []
      | none => [])

/-- Python `d.get(k)` on a `Jv`: raises (`AttributeError`) when the
value is not a dict. -/
def pyDictGet (j : Jv) (k : String) : Except Exc (Option Jv) :=
  match j with
  | .obj kvs => .ok (jLookup kvs k)
  | _ => .error (.otherError "AttributeError: object has no attribute get")

/-- Python `d.keys()` on a `Jv` (used in the middleware's log lines):
raises when the value is not a dict. -/
def pyKeysCheck (j : Jv) : Except Exc Unit :=
  match j with
  | .obj _ => .ok ()
  | _ => .error (.otherError "AttributeError: object has no attribute keys")

/-- Python `s.lower()` on a `Jv`: raises when it is not a string. -/
def pyStrLowerJv (j : Jv) : Except Exc String :=
  match j with
  | .str s => .ok (strLower s)
  | _ => .error (.otherError "AttributeError: object has no attribute lower")

/-- Model of `payment_data = payment_payload.get("payload", payment_payload)`:
the payload body may be nested under a `payload` key or sit at top
level. -/
def extractPaymentData (payment_payload : Jv) : Jv :=
  match payment_payload with
  | .obj kvs => (jLookup kvs "payload").getD payment_payload
  | _ => payment_payload

/-- Outcome of `dispatch`: forward to the downstream handler (with the
settlement receipt attached as a response header on the paid path), or a
402 response with the given JSON body. -/
inductive DispatchResult where
| next (receipt : Option Jv)
| resp402 (body : List (String × Jv))
deriving Repr

/-- Middleware configuration: payee, route registry, skip list, and the
standard-library oracles used by the header decoder. -/
structure MwConfig where
  pay_to : String
  routes : List (String × RouteConfig)
  skip_paths : List String
  lib : PyLib

/-- The body of the middleware's `try` block on a protected route with a
proof header: decode, extract the payload body, verify, settle with one
retry. The second component counts calls to
`facilitator_service.settle_payment`; `Except.error` is an exception
propagating to the `except` clauses of `dispatch`.
`verifyO` is the facilitator's verify result (the verify call is made at
most once, with fixed arguments); `settleO n` is the result of the n-th
settle call, `Except.error` modelling a raised exception. -/
def run_protected (lib : PyLib) (requirements : PaymentRequirements)
    (header : String) (verifyO : Except Exc VerificationResult)
    (settleO : Nat → Except Exc Jv) :
    Except Exc DispatchResult × Nat :=
  match decode_payment_header lib header with
  | .error e => (.error e, 0)
  | .ok payment_payload =>
  -- log line: payment_payload.get('scheme') ... (raises on non-dict)
  match pyDictGet payment_payload "scheme" with
  | .error e => (.error e, 0)
  | .ok schemeOpt =>
  -- scheme = payment_payload.get("scheme", "exact").lower()
  match pyStrLowerJv (schemeOpt.getD (.str "exact")) with
  | .error e => (.error e, 0)
  | .ok _scheme =>
  -- log line: list(payment_data.keys()) (raises on non-dict)
  match pyKeysCheck (extractPaymentData payment_payload) with
  | .error e => (.error e, 0)
  | .ok _ =>
  match verifyO with
  | .error e => (.error e, 0)
  | .ok verify_result =>
  if !verify_result.isValid then
    (.ok (.resp402 (create_payment_required_response requirements
      (some (.str (verify_result.invalidReason.getD "Invalid payment"))))), 0)
  else
  match settleO 0 with
  | .error e => (.error e, 1)
  | .ok settle1 =>
  match pyDictGet settle1 "success" with
  | .error e => (.error e, 1)
  | .ok succ1 =>
  if truthyOpt succ1 then
    (.ok (.next (some settle1)), 1)
  else
  match settleO 1 with
  | .error e => (.error e, 2)
  | .ok settle2 =>
  match pyDictGet settle2 "success" with
  | .error e => (.error e, 2)
  | .ok succ2 =>
  if truthyOpt succ2 then
    (.ok (.next (some settle2)), 2)
  else
  match pyDictGet settle2 "error" with
  | .error e => (.error e, 2)
  | .ok errOpt =>
    (.ok (.resp402 (create_payment_required_response requirements
      (some (errOpt.getD (.str "Settlement failed"))))), 2)

/-- The payment-proof header value:
`request.headers.get(\x22x-payment\x22) or request.headers.get(\x22x-402\x22)`,
with Python `or` falsiness (an empty string falls through), followed by
the `if not x_payment_header` check. -/
def paymentHeaderValue (req : Request) : Option String :=
  let a := headerGet req "x-payment"
  let b := headerGet req "x-402"
  let v := match a with
           | some s => if s ≠ "" then some s else b
           | none => b
  match v with
  | some s => if s = "" then none else some s
  | none => none

/-- The middleware's `except ValueError` / `except Exception` handlers:
a `ValueError` becomes a 402 with an `Invalid payment header` error, any
other exception a 402 with a `Payment verification error` error. -/
def handleProtectedOutcome (requirements : PaymentRequirements) :
    Except Exc DispatchResult × Nat → DispatchResult × Nat
| (.ok r, n) => (r, n)
| (.error (.valueError m), n) =>
  (.resp402 (create_payment_required_response requirements
    (some (.str ("Invalid payment header: " ++ m)))), n)
| (.error (.otherError m), n) =>
  (.resp402 (create_payment_required_response requirements
    (some (.str ("Payment verification error: " ++ m)))), n)

/-- Model of `X402PaywallMiddleware.dispatch`: skip-list check, route lookup,
header extraction, then the decode/verify/settle pipeline with its
`except` handlers mapped to 402 responses. The second component is the
number of settle calls. -/
def dispatch (cfg : MwConfig) (req : Request)
    (verifyO : Except Exc VerificationResult)
    (settleO : Nat → Except Exc Jv) : DispatchResult × Nat :=
  if should_skip_payment cfg.skip_paths req.path then (.next none, 0)
  else
    match get_route_config cfg.routes req.method req.path with
    | none => (.next none, 0)
    | some route_config =>
      let requirements := to_payment_requirements (absolute_resource_url req)
        cfg.pay_to route_config
      match paymentHeaderValue req with
      | none => (.resp402 (create_payment_required_response requirements none), 0)
      | some header =>
        handleProtectedOutcome requirements
          (run_protected cfg.lib requirements header verifyO settleO)

/-- An argument of a deserialized entry-function call, as the SDK
exposes it: a value with a `str(...)` rendering, and for ints/strings an
`int(...)` interpretation (`isinstance(args[1], (int, str))`). -/
inductive SdkArg where
| intArg (n : Int)
| strArg (s : String)
| otherArg (rep : String)
deriving Repr

/-- Python `str(arg)`. -/
def SdkArg.pyStr : SdkArg → String
| .intArg n => toString n
| .strArg s => s
| .otherArg rep => rep

/-- Model of `int(args[1]) if isinstance(args[1], (int, str)) else 0`; parsing a
non-numeric string raises. -/
def SdkArg.pyIntOr0 : SdkArg → Except String Int
| .intArg n => .ok n
| .strArg s => pyIntOfString s
| .otherArg _ => .ok 0

/-- A deserialized entry-function payload: `str(entry_function.function)`
and the argument list (the code's `hasattr(..., \x22arguments\x22) and
entry_function.arguments` guard is the list being non-empty). -/
structure EntryFunctionM where
  function : String
  arguments : List SdkArg
deriving Repr

/-- The payload of a deserialized `RawTransaction`: an entry-function
call (`payload.value` with a `function` attribute) or anything else. -/
inductive TxPayloadM where
| entryFn (ef : EntryFunctionM)
| nonEntry
deriving Repr

/-- A deserialized `RawTransaction` as `_verify_with_aptos_sdk` reads
it: sender, sequence number, optional expiration timestamp (absent on
some SDK versions, hence the `getattr` default), and payload. -/
structure RawTransactionM where
  sender : String
  sequence_number : Nat
  expiration_timestamp_secs : Option Int
  payload : TxPayloadM
deriving Repr

/-- The body of `_verify_with_aptos_sdk` after deserialization
(`service.py` lines 164-234); `Except.error` is an exception caught by
the function's own handler. `now` is `int(time.time())`. -/
def verify_sdk_body (tx : RawTransactionM)
    (payment_requirements : List (String × Jv)) (now : Int) :
    Except String VerificationResult := do
  let sender := tx.sender
  let expiration := tx.expiration_timestamp_secs
  let required_pay_to ←
    match (jLookup payment_requirements "payTo").getD (.str "") with
    | .str s => Except.ok (strLower s)
    | _ => Except.error "AttributeError: object has no attribute lower"
  let required_amount ←
    pyIntJv ((jLookup payment_requirements "maxAmountRequired").getD (.str "0"))
  let max_timeout_seconds ←
    pyIntJv ((jLookup payment_requirements "maxTimeoutSeconds").getD (.int 600))
  match expiration with
  | some e =>
    if e < now then
      return { isValid := false, invalidReason := some "Transaction has expired" }
    else if e > now + max_timeout_seconds then
      return { isValid := false,
               invalidReason := some "Transaction expiration exceeds maximum timeout" }
    else pure ()
  | none => pure ()
  match tx.payload with
  | .nonEntry => return { isValid := true, payer := some sender }
  | .entryFn ef =>
    let function_str := ef.function
    if strContains function_str "coin::transfer"
        || strContains function_str "aptos_account::transfer" then
      match ef.arguments with
      | a0 :: a1 :: _ =>
        let recipient := strLower a0.pyStr
        let amount ← a1.pyIntOr0
        if recipient ≠ required_pay_to then
          return { isValid := false,
                   invalidReason := some ("Recipient mismatch: expected "
                     ++ required_pay_to ++ ", got " ++ recipient) }
        else if amount < required_amount then
          return { isValid := false,
                   invalidReason := some ("Amount insufficient: required "
                     ++ toString required_amount ++ ", got " ++ toString amount) }
        else
          return { isValid := true, payer := some sender }
      | _ => return { isValid := true, payer := some sender }
    else
      return { isValid := true, payer := some sender }

/-- Model of `FacilitatorService._verify_with_aptos_sdk`: deserialize (the SDK
call's outcome is the `deser` argument), run the checks, and catch any
exception into an `SDK verification error` result. -/
def verify_with_aptos_sdk (deser : Except String RawTransactionM)
    (payment_requirements : List (String × Jv)) (now : Int) :
    VerificationResult :=
  match deser with
  | .error e =>
    { isValid := false, invalidReason := some ("SDK verification error: " ++ e) }
  | .ok tx =>
    match verify_sdk_body tx payment_requirements now with
    | .ok r => r
    | .error e =>
      { isValid := false, invalidReason := some ("SDK verification error: " ++ e) }

/-- Outcome of `_simulate_transaction` as `_verify_with_rpc` consumes
it: a success flag, an optional error text, and the sender extracted
from the simulation result (`None` or `\x22\x22` are falsy). -/
structure SimResult where
  success : Bool
  error : Option String := none
  sender : Option String := none
deriving Repr

/-- Model of `FacilitatorService._verify_with_rpc` (fallback when the SDK is not
importable). -/
def verify_with_rpc (sim : SimResult) : VerificationResult :=
  if !sim.success then
    { isValid := false,
      invalidReason := some ((sim.error).getD "Transaction simulation failed") }
  else
    match sim.sender with
    | some s =>
      if s = "" then
        { isValid := false,
          invalidReason := some "Could not extract sender from transaction" }
      else { isValid := true, payer := some s }
    | none =>
      { isValid := false,
        invalidReason := some "Could not extract sender from transaction" }

/-- The per-instance attributes of `FacilitatorService` set in
`__init__` and readable by its methods. -/
structure FacState where
  rpc_url : String
  facilitator_url : String
deriving Repr

/-- The fixed external environment of one verification: the base64
decoder, the SDK availability flag and deserializer, the RPC simulator
(keyed by the RPC URL it is called with), and the current clock. -/
structure FacEnv where
  b64decode : String → Except String (List Nat)
  sdkAvailable : Bool
  deserialize : List Nat → Except String RawTransactionM
  simulate : String → List Nat → SimResult
  now : Int

/-- Model of `FacilitatorService.verify_transaction_on_chain`: base64-decode the
transaction blob (raising on a non-string), then dispatch to the SDK or
RPC verifier; any exception becomes a `Verification error` result. -/
def verify_transaction_on_chain (st : FacState) (env : FacEnv)
    (transaction_bcs : Jv) (payment_requirements : List (String × Jv)) :
    VerificationResult :=
  let decoded : Except String (List Nat) :=
    match transaction_bcs with
    | .str s => env.b64decode s
    | _ => .error "TypeError: argument should be a bytes-like object or ASCII string"
  match decoded with
  | .error e =>
    { isValid := false, invalidReason := some ("Verification error: " ++ e) }
  | .ok transaction_bytes =>
    if env.sdkAvailable then
      verify_with_aptos_sdk (env.deserialize transaction_bytes)
        payment_requirements env.now
    else
      verify_with_rpc (env.simulate st.rpc_url transaction_bytes)

/-- Model of `FacilitatorService.verify_payment`: extract the transaction blob
(accepting either field name, with Python `or` falsiness), reject when
absent, else verify on chain. The instance state is returned alongside
the result to make mutation (there is none) explicit. -/
def verify_payment (st : FacState) (env : FacEnv) (_x402_version : Jv)
    (payment_payload : Jv) (payment_requirements : List (String × Jv)) :
    VerificationResult × FacState :=
  (match payment_payload with
   | .obj kvs =>
     let t1 := jLookup kvs "transaction"
     let t2 := jLookup kvs "transactionBcsBase64"
     let transaction_bcs :=
       match t1 with
       | some v => if truthy v then some v else t2
       | none => t2
     if !truthyOpt transaction_bcs then
       { isValid := false,
         invalidReason := some "Transaction not found in payment payload" }
     else
       verify_transaction_on_chain st env (transaction_bcs.getD .null)
         payment_requirements
   | _ =>
     -- payment_payload.get(...) on a non-dict raises; caught by the
     -- method's own handler into a Verification failed result
     { isValid := false,
       invalidReason := some
         "Verification failed: AttributeError: object has no attribute get" },
   st)

/-- Outcome of the single `requests.post` in `settle_payment`: a
transport-level exception, or a response with status code, body text,
and the result of `.json()` (`Except.error` = parse exception). -/
inductive HttpOutcome where
| transportError (cause : String)
| response (status : Nat) (text : String) (body : Except String Jv)
deriving Repr

/-- Model of `FacilitatorService.settle_payment`: one POST to the remote
facilitator; 200 returns the remote JSON verbatim; non-200 is translated
to `{success: false, error: ...}`; transport errors are translated to a
`Facilitator request failed` error. The second component counts HTTP
POST calls performed. -/
def settle_payment (post : HttpOutcome) (_x402_version : Jv)
    (_payment_payload : Jv) (_payment_requirements : Jv) : Jv × Nat :=
  match post with
  | .transportError cause =>
    (.obj [("success", .bool false),
           ("error", .str ("Facilitator request failed: " ++ cause))], 1)
  | .response status text body =>
    if status = 200 then
      match body with
      | .ok j => (j, 1)
      | .error e =>
        -- response.json() raised; caught by the generic handler
        (.obj [("success", .bool false),
               ("error", .str ("Settlement failed: " ++ e))], 1)
    else
      let error_msg : Jv :=
        match body with
        | .ok (.obj kvs) =>
          (jLookup kvs "error").getD
            ((jLookup kvs "message").getD (.str "Unknown error"))
        | _ =>
          -- .json() raised or .get raised on a non-dict body: bare except
          .str ("HTTP " ++ toString status ++ ": " ++ strTakeN text 500)
      (.obj [("success", .bool false), ("error", error_msg)], 1)

/-! ### Claim-side definitions and shared fixtures -/

/-- The payment requirements the middleware derives for a request
matched to a route config. -/
def requirementsFor (cfg : MwConfig) (req : Request) (rc : RouteConfig) :
    PaymentRequirements :=
  to_payment_requirements (absolute_resource_url req) cfg.pay_to rc

/-- Route lookup as the spec words it: the first match among the exact
key, the key with a trailing slash, and (for POST) the wildcard key. -/
def routeLookupClaim (routes : List (String × RouteConfig))
    (method path : String) : Option RouteConfig :=
  let np := normalize_path path
  (List.lookup (strUpper method ++ " " ++ np) routes).orElse (fun _ =>
    (List.lookup (strUpper method ++ " " ++ np ++ "/") routes).orElse (fun _ =>
      if strUpper method = "POST" then List.lookup "POST /" routes else none))

/-- A payment-requirements dictionary with the three fields
`_verify_with_aptos_sdk` reads. -/
def mkReqs (payTo amtS : String) (T : Int) : List (String × Jv) :=
  [("payTo", .str payTo), ("maxAmountRequired", .str amtS),
   ("maxTimeoutSeconds", .int T)]

/-- Standard-library oracle used by witnesses. -/
def libW : PyLib :=
  { b64decode := fun _ => .ok []
    utf8decode := fun _ => .ok ""
    jsonLoads := fun _ => .ok (.obj []) }

/-- Route config used by witnesses. -/
def rcW : RouteConfig :=
  { network := "movement", asset := "0x1::aptos_coin::AptosCoin"
    max_amount_required := "100000000" }

/-- Middleware config used by witnesses: the default skip paths from
`X402PaywallMiddleware.__init__`. -/
def cfgW : MwConfig :=
  { pay_to := "0xme"
    routes := [("POST /api/premium", rcW)]
    skip_paths := ["/.well-known/agent.json", "/.well-known/agent-card.json"]
    lib := libW }

/-- Request used by witnesses (no payment header). -/
def reqW : Request :=
  { method := "POST", path := "/api/premium", headers := [("host", "h:80")] }

/-- Request with a payment header, used by witnesses. -/
def reqHW : Request :=
  { method := "POST", path := "/api/premium"
    headers := [("host", "h:80"), ("x-payment", "abc")] }

/-- Middleware config with a wildcard route, used by the skip-list
witness. -/
def cfgSkipW : MwConfig :=
  { pay_to := "0xme"
    routes := [("POST /", rcW)]
    skip_paths := ["/.well-known/agent.json", "/.well-known/agent-card.json"]
    lib := libW }

/-- Request to a skip-listed discovery path, used by witnesses. -/
def reqSkipW : Request :=
  { method := "POST", path := "/x/.well-known/agent.json"
    headers := [("host", "h:80"), ("x-payment", "abc")] }

/-- Standard-library oracle whose base64 decoder always raises, used by
the decode-failure witness. -/
def libBadW : PyLib :=
  { b64decode := fun _ => .error "Invalid base64-encoded string"
    utf8decode := fun _ => .ok ""
    jsonLoads := fun _ => .ok (.obj []) }

/-- Settle oracle that always reports success, used by witnesses. -/
def settleOkW : Nat → Except Exc Jv :=
  fun _ => .ok (.obj [("success", .bool true)])

/-- Request to an unregistered route, used by witnesses. -/
def reqUnregW : Request :=
  { method := "GET", path := "/public/data", headers := [("host", "h:80")] }

/-! ### Claims -/

/-- C9: calling `verify_payment` twice with the same payload,
requirements and external environment yields the same
`VerificationResult`, and the service state (the attributes set in
`__init__`) is returned unchanged: verification reads no per-request
mutable state and mutates none. The clock and the network oracles are
explicit components of `env`, so equal arguments mean equal results. -/
theorem verify_payment_idempotent (st : FacState) (env : FacEnv) (v p : Jv)
    (r : List (String × Jv)) :
    (verify_payment st env v p r).2 = st ∧
    (verify_payment (verify_payment st env v p r).2 env v p r).1 =
      (verify_payment st env v p r).1 := by
  constructor
  · rfl
  · rfl

/-- C8: `settle_payment` returns a 200 response's JSON verbatim;
translates a non-200 response into `{success: false, error: e}` where
`e` is the remote body's `error` (or `message`) field when the body
parses as a JSON object and the string `HTTP <code>: <body>` otherwise;
and translates a transport failure into
`{success: false, error: Facilitator request failed: <cause>}`. -/
theorem settle_payment_translation (v p r j : Jv) (cause text : String)
    (status : Nat) (kvs : List (String × Jv)) (e : String)
    (hs : status ≠ 200) :
    (settle_payment (.response 200 text (.ok j)) v p r).1 = j ∧
    (settle_payment (.response status text (.ok (.obj kvs))) v p r).1 =
      .obj [("success", .bool false),
            ("error", (jLookup kvs "error").getD
              ((jLookup kvs "message").getD (.str "Unknown error")))] ∧
    (settle_payment (.response status text (.error e)) v p r).1 =
      .obj [("success", .bool false),
            ("error", .str ("HTTP " ++ toString status ++ ": " ++ strTakeN text 500))] ∧
    (settle_payment (.transportError cause) v p r).1 =
      .obj [("success", .bool false),
            ("error", .str ("Facilitator request failed: " ++ cause))] := by
  refine ⟨rfl, ?_, ?_, rfl⟩ <;> simp [settle_payment, hs]

/-- Witness for C8 at a concrete non-200 status. -/
theorem settle_payment_translation_witness :
    (404 : Nat) ≠ 200 ∧
    (settle_payment (.transportError "timeout") .null .null .null).1 =
      .obj [("success", .bool false),
            ("error", .str ("Facilitator request failed: " ++ "timeout"))] :=
  ⟨by decide,
   (settle_payment_translation .null .null .null .null "timeout" "b" 404 []
     "x" (by decide)).2.2.2⟩

/-- C7: a request whose path ends with or contains a configured skip
suffix is forwarded with no payment processing at all: no challenge and
zero settle calls, even when a route config matches the method and
path. -/
theorem skip_paths_bypass (cfg : MwConfig) (req : Request)
    (verifyO : Except Exc VerificationResult) (settleO : Nat → Except Exc Jv)
    (h : should_skip_payment cfg.skip_paths req.path = true) :
    dispatch cfg req verifyO settleO = (.next none, 0) := by
  simp [dispatch, h]

/-- Witness for C7: the default agent-card path is skipped even though
a matching `POST /` wildcard route exists. -/
theorem skip_paths_bypass_witness :
    should_skip_payment cfgSkipW.skip_paths reqSkipW.path = true ∧
    get_route_config cfgSkipW.routes reqSkipW.method reqSkipW.path = some rcW ∧
    dispatch cfgSkipW reqSkipW (.ok { isValid := true }) (fun _ => .ok .null) =
      (.next none, 0) :=
  ⟨by rfl, by rfl,
   skip_paths_bypass cfgSkipW reqSkipW _ _ (by rfl)⟩

/-- C5: route lookup normalizes the path (strip trailing slash except
root, ensure leading slash) and returns the first match among the exact
`METHOD path` key, the same key with a trailing slash, and (for POST
only) the `POST /` wildcard; when no key matches, the middleware
forwards the request with no payment challenge and no settle call. -/
theorem route_lookup_order (routes : List (String × RouteConfig))
    (method path : String) (cfg : MwConfig) (req : Request)
    (verifyO : Except Exc VerificationResult) (settleO : Nat → Except Exc Jv)
    (hnone : get_route_config cfg.routes req.method req.path = none) :
    get_route_config routes method path = routeLookupClaim routes method path ∧
    dispatch cfg req verifyO settleO = (.next none, 0) := by
  constructor
  · unfold get_route_config routeLookupClaim
    cases h1 : List.lookup (strUpper method ++ " " ++ normalize_path path) routes with
    | some rc => simp [h1, Option.orElse]
    | none =>
      cases h2 : List.lookup (strUpper method ++ " " ++ normalize_path path ++ "/") routes with
      | some rc => simp [h1, h2, Option.orElse]
      | none => simp [h1, h2, Option.orElse]
  · unfold dispatch
    split
    · rfl
    · rw [hnone]

/-- Witness for C5: an unregistered path is forwarded untouched. -/
theorem route_lookup_order_witness :
    get_route_config cfgW.routes reqUnregW.method reqUnregW.path = none ∧
    get_route_config cfgW.routes "GET" "/api/premium/" =
      routeLookupClaim cfgW.routes "GET" "/api/premium/" ∧
    dispatch cfgW reqUnregW (.ok { isValid := true }) (fun _ => .ok .null) =
      (.next none, 0) :=
  ⟨by rfl,
   (route_lookup_order cfgW.routes "GET" "/api/premium/" cfgW reqUnregW
     (.ok { isValid := true }) (fun _ => .ok .null) (by rfl)).1,
   (route_lookup_order cfgW.routes "GET" "/api/premium/" cfgW reqUnregW
     (.ok { isValid := true }) (fun _ => .ok .null) (by rfl)).2⟩

/-- C3: on a protected, non-skipped route with no payment-proof header
(neither `x-payment` nor `x-402`), the middleware returns a 402 whose
body is exactly `{x402Version: 1, accepts: [r]}` with a one-element
accepts list, `r.resource` the request's absolute URL, and no `error`
key; no settle call is made. -/
theorem no_header_402 (cfg : MwConfig) (req : Request) (rc : RouteConfig)
    (verifyO : Except Exc VerificationResult) (settleO : Nat → Except Exc Jv)
    (hskip : should_skip_payment cfg.skip_paths req.path = false)
    (hroute : get_route_config cfg.routes req.method req.path = some rc)
    (hheader : paymentHeaderValue req = none) :
    dispatch cfg req verifyO settleO =
      (.resp402 [("x402Version", .int 1),
        ("accepts", .arr [.obj (requirementsFor cfg req rc).to_dict])], 0) ∧
    jLookup (create_payment_required_response (requirementsFor cfg req rc) none)
      "error" = none ∧
    jLookup (requirementsFor cfg req rc).to_dict "resource" =
      some (.str (absolute_resource_url req)) := by
  refine ⟨?_, ?_, ?_⟩
  · unfold dispatch
    rw [hskip, hroute]
    simp only [Bool.false_eq_true, if_false, hheader,
      create_payment_required_response, requirementsFor, List.append_nil]
  · simp [create_payment_required_response, jLookup, List.lookup]
  · simp [PaymentRequirements.to_dict, jLookup, List.lookup, requirementsFor,
      to_payment_requirements]

/-- Witness for C3: the concrete protected route with no header. -/
theorem no_header_402_witness :
    should_skip_payment cfgW.skip_paths reqW.path = false ∧
    get_route_config cfgW.routes reqW.method reqW.path = some rcW ∧
    paymentHeaderValue reqW = none ∧
    dispatch cfgW reqW (.ok { isValid := true }) (fun _ => .ok .null) =
      (.resp402 [("x402Version", .int 1),
        ("accepts", .arr [.obj (requirementsFor cfgW reqW rcW).to_dict])], 0) :=
  ⟨by rfl, by rfl, by rfl,
   (no_header_402 cfgW reqW rcW (.ok { isValid := true }) (fun _ => .ok .null)
     (by rfl) (by rfl) (by rfl)).1⟩

/-- Helper: the exception handlers preserve the settle-call count. -/
theorem handleProtectedOutcome_snd (requirements : PaymentRequirements)
    (x : Except Exc DispatchResult × Nat) :
    (handleProtectedOutcome requirements x).2 = x.2 := by
  rcases x with ⟨er, n⟩
  cases er with
  | ok r => rfl
  | error e => cases e <;> rfl

/-- Helper: the protected pipeline makes at most two settle calls, and
exactly two only when the first call returned a result whose `success`
field is falsy. -/
theorem run_protected_count (lib : PyLib) (reqs : PaymentRequirements)
    (hh : String) (vO : Except Exc VerificationResult)
    (sO : Nat → Except Exc Jv) :
    (run_protected lib reqs hh vO sO).2 ≤ 2 ∧
    ((run_protected lib reqs hh vO sO).2 = 2 →
      ∃ s1 o, sO 0 = .ok s1 ∧ pyDictGet s1 "success" = .ok o ∧
        truthyOpt o = false) := by
  constructor
  · unfold run_protected
    repeat' split
    all_goals simp
  · unfold run_protected
    intro h
    repeat' split at h
    all_goals first
      | (simp at h; done)
      | (exact ⟨_, _, by assumption, by assumption, by simp_all⟩)

/-- C4: the middleware invokes the facilitator's settle operation at
most twice per request — the initial attempt plus exactly one retry
performed only when the first attempt's result has a falsy `success`
field; a third settle call never occurs — and `settle_payment` itself
performs exactly one HTTP POST per call. -/
theorem settle_at_most_twice (cfg : MwConfig) (req : Request)
    (verifyO : Except Exc VerificationResult) (settleO : Nat → Except Exc Jv)
    (post : HttpOutcome) (v p r : Jv) :
    (dispatch cfg req verifyO settleO).2 ≤ 2 ∧
    ((dispatch cfg req verifyO settleO).2 = 2 →
      ∃ s1 o, settleO 0 = .ok s1 ∧ pyDictGet s1 "success" = .ok o ∧
        truthyOpt o = false) ∧
    (settle_payment post v p r).2 = 1 := by
  have hd : (dispatch cfg req verifyO settleO).2 = 0 ∨
      ∃ reqs hh, (dispatch cfg req verifyO settleO).2 =
        (run_protected cfg.lib reqs hh verifyO settleO).2 := by
    unfold dispatch
    split
    · exact Or.inl rfl
    · split
      · exact Or.inl rfl
      · split
        · exact Or.inl rfl
        · exact Or.inr ⟨_, _, handleProtectedOutcome_snd _ _⟩
  refine ⟨?_, ?_, ?_⟩
  · rcases hd with h0 | ⟨reqs, hh, heq⟩
    · omega
    · rw [heq]; exact (run_protected_count cfg.lib reqs hh verifyO settleO).1
  · rcases hd with h0 | ⟨reqs, hh, heq⟩
    · omega
    · rw [heq]; exact (run_protected_count cfg.lib reqs hh verifyO settleO).2
  · unfold settle_payment
    repeat' split
    all_goals rfl

/-- Witness for C4 at concrete inputs. -/
theorem settle_at_most_twice_witness :
    (dispatch cfgW reqHW (.ok { isValid := true }) settleOkW).2 ≤ 2 ∧
    ((dispatch cfgW reqHW (.ok { isValid := true }) settleOkW).2 = 2 →
      ∃ s1 o, settleOkW 0 = .ok s1 ∧
        pyDictGet s1 "success" = .ok o ∧ truthyOpt o = false) ∧
    (settle_payment (.transportError "timeout") .null .null .null).2 = 1 :=
  settle_at_most_twice cfgW reqHW (.ok { isValid := true }) settleOkW
    (.transportError "timeout") .null .null .null

/-- C2: for an entry-function transaction that calls a coin-transfer
function with at least two arguments (and sits inside the expiry
window), SDK verification rejects a first argument differing
case-insensitively from the requirements' payTo with a
recipient-mismatch reason, rejects a second argument strictly below
maxAmountRequired with an amount-insufficient reason, and accepts a
transfer of exactly maxAmountRequired to the correct recipient. -/
theorem recipient_amount_checks (sender : String) (seq : Nat)
    (expo : Option Int) (fn : String) (a0 : SdkArg) (amt : Int)
    (rest : List SdkArg) (payTo amtS : String) (T now A : Int)
    (hfn : strContains fn "coin::transfer" = true ∨
      strContains fn "aptos_account::transfer" = true)
    (hA : pyIntOfString amtS = .ok A)
    (hexp : expo = none ∨ ∃ e, expo = some e ∧ now ≤ e ∧ e ≤ now + T) :
    (strLower a0.pyStr ≠ strLower payTo →
      verify_with_aptos_sdk
        (.ok ⟨sender, seq, expo, .entryFn ⟨fn, a0 :: .intArg amt :: rest⟩⟩)
        (mkReqs payTo amtS T) now =
      { isValid := false, invalidReason := some ("Recipient mismatch: expected "
          ++ strLower payTo ++ ", got " ++ strLower a0.pyStr) }) ∧
    (strLower a0.pyStr = strLower payTo → amt < A →
      verify_with_aptos_sdk
        (.ok ⟨sender, seq, expo, .entryFn ⟨fn, a0 :: .intArg amt :: rest⟩⟩)
        (mkReqs payTo amtS T) now =
      { isValid := false, invalidReason := some ("Amount insufficient: required "
          ++ toString A ++ ", got " ++ toString amt) }) ∧
    (strLower a0.pyStr = strLower payTo → amt = A →
      verify_with_aptos_sdk
        (.ok ⟨sender, seq, expo, .entryFn ⟨fn, a0 :: .intArg amt :: rest⟩⟩)
        (mkReqs payTo amtS T) now =
      { isValid := true, payer := some sender }) := by
  have hfnb : (strContains fn "coin::transfer"
      || strContains fn "aptos_account::transfer") = true := by
    rcases hfn with h | h <;> simp [h]
  have l0 : jLookup (mkReqs payTo amtS T) "payTo" = some (Jv.str payTo) := rfl
  have l1 : jLookup (mkReqs payTo amtS T) "maxAmountRequired" =
    some (Jv.str amtS) := rfl
  have l2 : jLookup (mkReqs payTo amtS T) "maxTimeoutSeconds" =
    some (Jv.int T) := rfl
  refine ⟨?_, ?_, ?_⟩
  · intro hne
    rcases hexp with he | ⟨e, he, h1, h2⟩
    · simp [verify_with_aptos_sdk, verify_sdk_body, pyIntJv, bind, Except.bind,
        pure, Except.pure, l0, l1, l2,
        hA, he, hfnb, hne, SdkArg.pyIntOr0]
    · have hn1 : ¬ e < now := by omega
      have hn2 : ¬ now + T < e := by omega
      simp [verify_with_aptos_sdk, verify_sdk_body, pyIntJv, bind, Except.bind,
        pure, Except.pure, l0, l1, l2,
        hA, he, hfnb, hne, SdkArg.pyIntOr0, hn1, hn2]
  · intro heq hlt
    rcases hexp with he | ⟨e, he, h1, h2⟩
    · simp [verify_with_aptos_sdk, verify_sdk_body, pyIntJv, bind, Except.bind,
        pure, Except.pure, l0, l1, l2,
        hA, he, hfnb, heq, hlt, SdkArg.pyIntOr0]
    · have hn1 : ¬ e < now := by omega
      have hn2 : ¬ now + T < e := by omega
      simp [verify_with_aptos_sdk, verify_sdk_body, pyIntJv, bind, Except.bind,
        pure, Except.pure, l0, l1, l2,
        hA, he, hfnb, heq, hlt, SdkArg.pyIntOr0, hn1, hn2]
  · intro heq hamt
    rcases hexp with he | ⟨e, he, h1, h2⟩
    · simp [verify_with_aptos_sdk, verify_sdk_body, pyIntJv, bind, Except.bind,
        pure, Except.pure, l0, l1, l2,
        hA, he, hfnb, heq, hamt, SdkArg.pyIntOr0]
    · have hn1 : ¬ e < now := by omega
      have hn2 : ¬ now + T < e := by omega
      simp [verify_with_aptos_sdk, verify_sdk_body, pyIntJv, bind, Except.bind,
        pure, Except.pure, l0, l1, l2,
        hA, he, hfnb, heq, hamt, SdkArg.pyIntOr0, hn1, hn2]

/-- Witness for C2: an exact-amount transfer to the correct recipient
(case differing only in case) passes verification. -/
theorem recipient_amount_checks_witness :
    verify_with_aptos_sdk
      (.ok ⟨"0xsender", 0, none,
        .entryFn ⟨"0x1::coin::transfer",
          [.strArg "0xABC", .intArg 100000000]⟩⟩)
      (mkReqs "0xabc" "100000000" 600) 50 =
      { isValid := true, payer := some "0xsender" } :=
  (recipient_amount_checks "0xsender" 0 none "0x1::coin::transfer"
    (.strArg "0xABC") 100000000 [] "0xabc" "100000000" 600 50 100000000
    (Or.inl (by rfl)) (by rfl) (Or.inl rfl)).2.2 (by rfl) rfl

/-- C6: when the deserialized transaction exposes an expiration
timestamp, verification rejects a timestamp strictly before `now` as
expired and a timestamp strictly beyond `now + maxTimeoutSeconds` as
exceeding the maximum timeout; when it exposes none, both expiry checks
are skipped and the result does not depend on the clock at all. -/
theorem expiry_checks (sender : String) (seq : Nat) (pl : TxPayloadM)
    (payTo amtS : String) (T now now2 A e : Int)
    (hA : pyIntOfString amtS = .ok A) :
    (e < now →
      verify_with_aptos_sdk (.ok ⟨sender, seq, some e, pl⟩)
        (mkReqs payTo amtS T) now =
      { isValid := false, invalidReason := some "Transaction has expired" }) ∧
    (¬ e < now → now + T < e →
      verify_with_aptos_sdk (.ok ⟨sender, seq, some e, pl⟩)
        (mkReqs payTo amtS T) now =
      { isValid := false,
        invalidReason := some "Transaction expiration exceeds maximum timeout" }) ∧
    (verify_with_aptos_sdk (.ok ⟨sender, seq, none, pl⟩)
        (mkReqs payTo amtS T) now =
      verify_with_aptos_sdk (.ok ⟨sender, seq, none, pl⟩)
        (mkReqs payTo amtS T) now2) := by
  have l0 : jLookup (mkReqs payTo amtS T) "payTo" = some (Jv.str payTo) := rfl
  have l1 : jLookup (mkReqs payTo amtS T) "maxAmountRequired" =
    some (Jv.str amtS) := rfl
  have l2 : jLookup (mkReqs payTo amtS T) "maxTimeoutSeconds" =
    some (Jv.int T) := rfl
  refine ⟨?_, ?_, ?_⟩
  · intro hlt
    simp [verify_with_aptos_sdk, verify_sdk_body, pyIntJv, bind, Except.bind,
      pure, Except.pure, l0, l1, l2, hA, hlt]
  · intro hn hgt
    simp [verify_with_aptos_sdk, verify_sdk_body, pyIntJv, bind, Except.bind,
      pure, Except.pure, l0, l1, l2, hA, hn, hgt]
  · rfl

/-- Witness for C6: a concrete already-expired transaction. -/
theorem expiry_checks_witness :
    verify_with_aptos_sdk (.ok ⟨"0xs", 0, some 10, .nonEntry⟩)
      (mkReqs "0xabc" "5" 600) 50 =
      { isValid := false, invalidReason := some "Transaction has expired" } :=
  (expiry_checks "0xs" 0 .nonEntry "0xabc" "5" 600 50 60 5 10 (by rfl)).1
    (by decide)

/-- C10: a deserialized transaction that passes (or skips) the expiry
checks is accepted with `isValid = true` and payer = sender whenever the
recipient/amount comparison never fires: when the payload is not an
entry-function call, when the function identifier contains no recognized
coin-transfer name, or when the argument list has fewer than two
entries. -/
theorem no_check_acceptance (sender : String) (seq : Nat) (expo : Option Int)
    (fn : String) (args : List SdkArg) (payTo amtS : String) (T now A : Int)
    (hA : pyIntOfString amtS = .ok A)
    (hexp : expo = none ∨ ∃ e, expo = some e ∧ now ≤ e ∧ e ≤ now + T) :
    (verify_with_aptos_sdk (.ok ⟨sender, seq, expo, .nonEntry⟩)
        (mkReqs payTo amtS T) now =
      { isValid := true, payer := some sender }) ∧
    (strContains fn "coin::transfer" = false →
      strContains fn "aptos_account::transfer" = false →
      verify_with_aptos_sdk (.ok ⟨sender, seq, expo, .entryFn ⟨fn, args⟩⟩)
        (mkReqs payTo amtS T) now =
      { isValid := true, payer := some sender }) ∧
    (args.length < 2 →
      verify_with_aptos_sdk (.ok ⟨sender, seq, expo, .entryFn ⟨fn, args⟩⟩)
        (mkReqs payTo amtS T) now =
      { isValid := true, payer := some sender }) := by
  have l0 : jLookup (mkReqs payTo amtS T) "payTo" = some (Jv.str payTo) := rfl
  have l1 : jLookup (mkReqs payTo amtS T) "maxAmountRequired" =
    some (Jv.str amtS) := rfl
  have l2 : jLookup (mkReqs payTo amtS T) "maxTimeoutSeconds" =
    some (Jv.int T) := rfl
  refine ⟨?_, ?_, ?_⟩
  · rcases hexp with he | ⟨e, he, h1, h2⟩
    · simp [verify_with_aptos_sdk, verify_sdk_body, pyIntJv, bind, Except.bind,
        pure, Except.pure, l0, l1, l2, hA, he]
    · have hn1 : ¬ e < now := by omega
      have hn2 : ¬ now + T < e := by omega
      simp [verify_with_aptos_sdk, verify_sdk_body, pyIntJv, bind, Except.bind,
        pure, Except.pure, l0, l1, l2, hA, he, hn1, hn2]
  · intro hc1 hc2
    rcases hexp with he | ⟨e, he, h1, h2⟩
    · simp [verify_with_aptos_sdk, verify_sdk_body, pyIntJv, bind, Except.bind,
        pure, Except.pure, l0, l1, l2, hA, he, hc1, hc2]
    · have hn1 : ¬ e < now := by omega
      have hn2 : ¬ now + T < e := by omega
      simp [verify_with_aptos_sdk, verify_sdk_body, pyIntJv, bind, Except.bind,
        pure, Except.pure, l0, l1, l2, hA, he, hc1, hc2, hn1, hn2]
  · intro hlen
    rcases args with _ | ⟨a, _ | ⟨b, rest⟩⟩
    · rcases hexp with he | ⟨e, he, h1, h2⟩
      · by_cases hc : (strContains fn "coin::transfer"
            || strContains fn "aptos_account::transfer") = true <;>
          simp [verify_with_aptos_sdk, verify_sdk_body, pyIntJv, bind,
            Except.bind, pure, Except.pure, l0, l1, l2, hA, he, hc]
      · have hn1 : ¬ e < now := by omega
        have hn2 : ¬ now + T < e := by omega
        by_cases hc : (strContains fn "coin::transfer"
            || strContains fn "aptos_account::transfer") = true <;>
          simp [verify_with_aptos_sdk, verify_sdk_body, pyIntJv, bind,
            Except.bind, pure, Except.pure, l0, l1, l2, hA, he, hc, hn1, hn2]
    · rcases hexp with he | ⟨e, he, h1, h2⟩
      · by_cases hc : (strContains fn "coin::transfer"
            || strContains fn "aptos_account::transfer") = true <;>
          simp [verify_with_aptos_sdk, verify_sdk_body, pyIntJv, bind,
            Except.bind, pure, Except.pure, l0, l1, l2, hA, he, hc]
      · have hn1 : ¬ e < now := by omega
        have hn2 : ¬ now + T < e := by omega
        by_cases hc : (strContains fn "coin::transfer"
            || strContains fn "aptos_account::transfer") = true <;>
          simp [verify_with_aptos_sdk, verify_sdk_body, pyIntJv, bind,
            Except.bind, pure, Except.pure, l0, l1, l2, hA, he, hc, hn1, hn2]
    · simp at hlen
      omega

/-- Witness for C10: a non-entry-function transaction is accepted. -/
theorem no_check_acceptance_witness :
    verify_with_aptos_sdk (.ok ⟨"0xs", 0, none, .nonEntry⟩)
      (mkReqs "0xabc" "5" 600) 50 =
      { isValid := true, payer := some "0xs" } :=
  (no_check_acceptance "0xs" 0 none "f" [] "0xabc" "5" 600 50 5 (by rfl)
    (Or.inl rfl)).1

/-- A non-empty string stays non-empty under right-append. -/
theorem strAppend_ne_empty (a b : String) (ha : a ≠ "") : a ++ b ≠ "" := by
  cases a with | mk l =>
  cases b with | mk m =>
  intro hc
  apply ha
  have hlm : l ++ m = [] := congrArg String.data hc
  have hl : l = [] := (List.append_eq_nil.mp hlm).1
  simp [hl]

/-- Verify results with a falsy `isValid` carry a non-empty reason
(after the middleware's `Invalid payment` default); the repository's own
facilitator only ever produces such results. -/
def verifyReasonsWF (vO : Except Exc VerificationResult) : Prop :=
  ∀ r, vO = .ok r → r.isValid = false →
    r.invalidReason.getD "Invalid payment" ≠ ""

/-- Settle results whose dictionary carries an `error` key carry a
non-empty string there; `settle_payment` only ever produces such
dictionaries on failure. -/
def settleErrorsWF (sO : Nat → Except Exc Jv) : Prop :=
  ∀ n j kvs v, sO n = .ok j → j = .obj kvs → jLookup kvs "error" = some v →
    ∃ s, v = .str s ∧ s ≠ ""

/-- Helper: every outcome of the protected pipeline is an exception, a
forward, or a 402 whose error is a non-empty string. -/
theorem run_protected_shapes (lib : PyLib) (reqs : PaymentRequirements)
    (header : String) (vO : Except Exc VerificationResult)
    (sO : Nat → Except Exc Jv) (hv : verifyReasonsWF vO)
    (hs : settleErrorsWF sO) :
    (∃ er n, run_protected lib reqs header vO sO = (.error er, n)) ∨
    (∃ rcpt n, run_protected lib reqs header vO sO = (.ok (.next rcpt), n)) ∨
    (∃ e n, e ≠ "" ∧ run_protected lib reqs header vO sO =
      (.ok (.resp402 (create_payment_required_response reqs
        (some (.str e)))), n)) := by
  unfold run_protected
  cases hdec : decode_payment_header lib header with
  | error e => exact Or.inl ⟨_, _, rfl⟩
  | ok pp =>
  dsimp only
  cases hg : pyDictGet pp "scheme" with
  | error e => exact Or.inl ⟨_, _, rfl⟩
  | ok schemeOpt =>
  dsimp only
  cases hl : pyStrLowerJv (schemeOpt.getD (.str "exact")) with
  | error e => exact Or.inl ⟨_, _, rfl⟩
  | ok sc =>
  dsimp only
  cases hk : pyKeysCheck (extractPaymentData pp) with
  | error e => exact Or.inl ⟨_, _, rfl⟩
  | ok u =>
  dsimp only
  cases hvr : vO with
  | error e => exact Or.inl ⟨_, _, rfl⟩
  | ok vr =>
  dsimp only
  by_cases hval : vr.isValid = true
  · rw [if_neg (by simp [hval])]
    cases hs0 : sO 0 with
    | error e => exact Or.inl ⟨_, _, rfl⟩
    | ok s1 =>
    dsimp only
    cases hg1 : pyDictGet s1 "success" with
    | error e => exact Or.inl ⟨_, _, rfl⟩
    | ok succ1 =>
    dsimp only
    by_cases ht1 : truthyOpt succ1 = true
    · rw [if_pos ht1]
      exact Or.inr (Or.inl ⟨_, _, rfl⟩)
    · rw [if_neg ht1]
      cases hs1 : sO 1 with
      | error e => exact Or.inl ⟨_, _, rfl⟩
      | ok s2 =>
      dsimp only
      cases hg2 : pyDictGet s2 "success" with
      | error e => exact Or.inl ⟨_, _, rfl⟩
      | ok succ2 =>
      dsimp only
      by_cases ht2 : truthyOpt succ2 = true
      · rw [if_pos ht2]
        exact Or.inr (Or.inl ⟨_, _, rfl⟩)
      · rw [if_neg ht2]
        cases hg3 : pyDictGet s2 "error" with
        | error e => exact Or.inl ⟨_, _, rfl⟩
        | ok errOpt =>
        dsimp only
        cases errOpt with
        | none =>
          exact Or.inr (Or.inr ⟨"Settlement failed", 2, by decide, rfl⟩)
        | some v =>
          obtain ⟨kvs, hkvs, hlk⟩ :
              ∃ kvs, s2 = Jv.obj kvs ∧ jLookup kvs "error" = some v := by
            rcases s2 with s | i | b | _ | xs | kvs
            · simp [pyDictGet] at hg3
            · simp [pyDictGet] at hg3
            · simp [pyDictGet] at hg3
            · simp [pyDictGet] at hg3
            · simp [pyDictGet] at hg3
            · refine ⟨kvs, rfl, ?_⟩
              simpa [pyDictGet] using hg3
          obtain ⟨s, hvs, hsne⟩ := hs 1 s2 kvs v hs1 hkvs hlk
          refine Or.inr (Or.inr ⟨s, 2, hsne, ?_⟩)
          simp [hvs]
  · have hfalse : vr.isValid = false := by simpa using hval
    rw [if_pos (by simp [hfalse])]
    exact Or.inr (Or.inr ⟨vr.invalidReason.getD "Invalid payment", 0,
      hv vr hvr hfalse, rfl⟩)

/-- C1: on a protected, non-skipped route with a proof header present,
dispatch resolves every failure of the decode/verify/settle pipeline —
malformed header, failed verification, failed settlement, or any raised
exception — to a 402 carrying the accepts challenge and a non-empty
error string, and otherwise forwards; no exception escapes and no 5xx
exists in the result type. In particular any header whose decode raises
yields exactly the 402 with the decode-failure message. -/
theorem paywall_fail_closed (cfg : MwConfig) (req : Request)
    (rc : RouteConfig) (header : String)
    (vO : Except Exc VerificationResult) (sO : Nat → Except Exc Jv)
    (hskip : should_skip_payment cfg.skip_paths req.path = false)
    (hroute : get_route_config cfg.routes req.method req.path = some rc)
    (hheader : paymentHeaderValue req = some header)
    (hv : verifyReasonsWF vO) (hs : settleErrorsWF sO) :
    ((∃ rcpt n, dispatch cfg req vO sO = (.next rcpt, n)) ∨
     (∃ e n, e ≠ "" ∧ dispatch cfg req vO sO =
        (.resp402 (create_payment_required_response
          (requirementsFor cfg req rc) (some (.str e))), n))) ∧
    (∀ m, decode_payment_header cfg.lib header = .error (.valueError m) →
      dispatch cfg req vO sO =
        (.resp402 (create_payment_required_response
          (requirementsFor cfg req rc)
          (some (.str ("Invalid payment header: " ++ m)))), 0)) ∧
    (∀ e, jLookup (create_payment_required_response
        (requirementsFor cfg req rc) (some (.str e))) "accepts" =
      some (.arr [.obj (requirementsFor cfg req rc).to_dict])) := by
  have hdis : dispatch cfg req vO sO =
      handleProtectedOutcome (requirementsFor cfg req rc)
        (run_protected cfg.lib (requirementsFor cfg req rc) header vO sO) := by
    unfold dispatch
    simp only [hskip, Bool.false_eq_true, if_false, hroute, hheader,
      requirementsFor]
  refine ⟨?_, ?_, ?_⟩
  · rcases run_protected_shapes cfg.lib (requirementsFor cfg req rc) header
      vO sO hv hs with ⟨er, n, hrp⟩ | ⟨rcpt, n, hrp⟩ | ⟨e, n, hne, hrp⟩
    · cases er with
      | valueError m =>
        refine Or.inr ⟨"Invalid payment header: " ++ m, n,
          strAppend_ne_empty _ _ (by decide), ?_⟩
        rw [hdis, hrp]; rfl
      | otherError m =>
        refine Or.inr ⟨"Payment verification error: " ++ m, n,
          strAppend_ne_empty _ _ (by decide), ?_⟩
        rw [hdis, hrp]; rfl
    · exact Or.inl ⟨rcpt, n, by rw [hdis, hrp]; rfl⟩
    · exact Or.inr ⟨e, n, hne, by rw [hdis, hrp]; rfl⟩
  · intro m hm
    have hrp : run_protected cfg.lib (requirementsFor cfg req rc) header
        vO sO = (.error (.valueError m), 0) := by
      unfold run_protected
      rw [hm]
    rw [hdis, hrp]; rfl
  · intro e
    rfl

/-- Middleware config with the failing decoder, used by witnesses. -/
def cfgBadW : MwConfig :=
  { pay_to := "0xme"
    routes := [("POST /api/premium", rcW)]
    skip_paths := ["/.well-known/agent.json", "/.well-known/agent-card.json"]
    lib := libBadW }

/-- Witness for C1: with a header that fails to decode, dispatch
returns the 402 carrying the decode-failure message. -/
theorem paywall_fail_closed_witness :
    dispatch cfgBadW reqHW (.ok { isValid := true }) settleOkW =
      (.resp402 (create_payment_required_response
        (requirementsFor cfgBadW reqHW rcW)
        (some (.str ("Invalid payment header: " ++
          ("Failed to decode payment header: " ++
            "Invalid base64-encoded string"))))), 0) :=
  (paywall_fail_closed cfgBadW reqHW rcW "abc" (.ok { isValid := true })
    settleOkW (by rfl) (by rfl) (by rfl)
    (by
      intro r hr hf
      simp only [Except.ok.injEq] at hr
      rw [← hr] at hf
      simp at hf)
    (by
      intro n j kvs v hj hobj hlk
      simp only [settleOkW, Except.ok.injEq] at hj
      rw [← hj] at hobj
      simp only [Jv.obj.injEq] at hobj
      rw [← hobj] at hlk
      rw [show jLookup [("success", Jv.bool true)] "error" =
        (none : Option Jv) from rfl] at hlk
      exact Option.noConfusion hlk)).2.1
    ("Failed to decode payment header: " ++ "Invalid base64-encoded string")
    (by rfl)

end X402
